import Mathlib

/-!
Shallow embedding of the task orchestrator in
src/backend/app/core/voidkernel.py (class VoidKernel), together with
theorems settling the frozen claims about it.

Modelling conventions:
* machine timestamps (time.time(), datetime.utcnow()) are modelled as a Nat
  passed in by the caller at each clock read;
* Python dicts are modelled as association lists (first-match lookup,
  in-place overwrite on existing key, append on fresh key), which matches
  CPython's insertion-ordered dict semantics;
* uuid4 task ids are modelled as a fresh counter ("task-" ++ n);
* payload / result dictionaries (Dict[str, Any]) are modelled as
  association lists of strings, which is all the kernel itself inspects
  (get on a key, list of keys);
* the registered AI module objects are external collaborators: the registry
  keeps only their names and the behaviour of a module invocation is an
  oracle parameter (Invoke) supplied to the worker step;
* asyncio.PriorityQueue is a binary min-heap over the pushed tuples
  (priority_value, timestamp, task): get() returns the entry that is
  lexicographically smallest in (priority_value, timestamp).
-/

namespace VoidKernel

/-- Priority enum at voidkernel.py lines 18-22: LOW=1, NORMAL=2, HIGH=3, CRITICAL=4. -/
inductive Priority where
  | low
  | normal
  | high
  | critical
deriving DecidableEq, Repr

/-- The numeric enum value used as the queue key (`priority.value`, line 130). -/
def Priority.value : Priority → Nat
  | .low => 1
  | .normal => 2
  | .high => 3
  | .critical => 4

/-- TaskStatus enum at voidkernel.py lines 24-29. -/
inductive TaskStatus where
  | pending
  | running
  | completed
  | failed
  | cancelled
deriving DecidableEq, Repr

/-- Opaque string-keyed mapping (Python Dict[str, Any]) as far as the kernel reads it. -/
abbrev ResultDict : Type := List (String × String)

/-- Python dict lookup `d[k]` / `d.get(k)` on an insertion-ordered mapping. -/
def dictLookup {α : Type} (k : String) : List (String × α) → Option α
  | [] => none
  | e :: rest => if e.1 = k then some e.2 else dictLookup k rest

/-- Python dict assignment `d[k] = v`: overwrite in place if the key exists,
append at the end otherwise. -/
def dictInsert {α : Type} (k : String) (v : α) : List (String × α) → List (String × α)
  | [] => [(k, v)]
  | e :: rest => if e.1 = k then (k, v) :: rest else e :: dictInsert k v rest

/-- Python `del d[k]`: remove the entry for the key. -/
def dictErase {α : Type} (k : String) : List (String × α) → List (String × α)
  | [] => []
  | e :: rest => if e.1 = k then rest else e :: dictErase k rest

/-- The projection `_summarize_result` keeps (lines 309-316):
type, status, and the first five keys of the result. -/
structure SummaryProj where
  rtype : Option String
  rstatus : Option String
  key_outputs : List String
deriving DecidableEq, Repr

/-- One entry appended to a memory-vault "recent_tasks" list (lines 296-302). -/
structure ResultSummary where
  task_id : String
  module : String
  action : String
  result_summary : SummaryProj
  timestamp : Nat
deriving DecidableEq, Repr

/-- AITask dataclass at voidkernel.py lines 31-52. -/
structure AITask where
  id : String
  module : String
  action : String
  data : ResultDict
  priority : Priority
  created_at : Nat
  user_id : Option String
  project_id : Option String
  status : TaskStatus
  result : Option ResultDict
  error : Option String
  dependencies : List String
  callbacks : List String := []
deriving DecidableEq, Repr

/-- Payload of a broadcast event (lines 216-220 and 237-241). -/
inductive EventData where
  | task_completed (task_id module_name : String) (result : ResultDict)
  | task_failed (task_id module_name error : String)
deriving DecidableEq, Repr

/-- A message put on the broadcast channel by `_broadcast_event` (lines 339-346). -/
structure EventMsg where
  etype : String
  data : EventData
deriving DecidableEq, Repr

/-- Per-module counters in performance_metrics["module_performance"] (lines 372-378). -/
structure ModuleMetrics where
  total_tasks : Nat
  total_time : Nat
  success_count : Nat
  error_count : Nat
deriving DecidableEq, Repr

/-- The fields of performance_metrics that `_update_performance_metrics` touches. -/
structure PerfMetrics where
  tasks_processed : Nat
  module_performance : List (String × ModuleMetrics)
deriving DecidableEq, Repr

/-- The mutable state owned by a VoidKernel instance (constructor, lines 57-73).
worker_tasks / broker_loops / monitor_loops record the concurrent loops spawned
by `start_monitoring` (lines 136-149); the queue holds the tuples pushed at
line 131. -/
structure KernelState where
  task_queue : List (Nat × Nat × AITask)
  active_tasks : List (String × AITask)
  completed_tasks : List (String × AITask)
  ai_modules : List String
  memory_vault : List (String × List ResultSummary)
  broadcast_channel : List EventMsg
  performance_metrics : PerfMetrics
  worker_tasks : List String
  broker_loops : Nat
  monitor_loops : Nat
  max_workers : Nat
  is_running : Bool
  next_id : Nat
deriving DecidableEq, Repr

/-- Fresh kernel state (constructor defaults; max_workers = 4 at line 66). -/
def initState : KernelState :=
  { task_queue := []
    active_tasks := []
    completed_tasks := []
    ai_modules := []
    memory_vault := []
    broadcast_channel := []
    performance_metrics := { tasks_processed := 0, module_performance := [] }
    worker_tasks := []
    broker_loops := 0
    monitor_loops := 0
    max_workers := 4
    is_running := true
    next_id := 0 }

/-- Outcome of one module invocation: the awaited call returns a result
dictionary or raises with a message. -/
inductive ExecOutcome where
  | success (r : ResultDict)
  | failure (msg : String)
deriving DecidableEq, Repr

/-- Context assembled by `_get_task_context` (lines 267-284). -/
structure TaskContext where
  user : Option (List ResultSummary)
  project : Option (List ResultSummary)
  dependency_results : List (String × ResultDict)
deriving DecidableEq, Repr

/-- Behaviour of the external registered modules: given module name, action,
task data and merged context, the invocation succeeds or fails. -/
def Invoke : Type := String → String → ResultDict → TaskContext → ExecOutcome

/-- Embedding of `register_ai_module` (lines 101-104): dict assignment into the registry,
modelled on the name set. -/
def register_ai_module (name : String) (s : KernelState) : KernelState :=
  { s with ai_modules := if name ∈ s.ai_modules then s.ai_modules else s.ai_modules ++ [name] }

/-- Embedding of `submit_task` (lines 106-134): build the AITask (status PENDING, result and
error unset) and put (priority.value, now, task) on the priority queue.
`now` stands for the wall-clock read (datetime.utcnow() / time.time()). -/
def submit_task (module action : String) (data : ResultDict) (priority : Priority)
    (user_id project_id : Option String) (dependencies : List String) (now : Nat)
    (s : KernelState) : String × KernelState :=
  let task_id := "task-" ++ toString s.next_id
  let task : AITask :=
    { id := task_id
      module := module
      action := action
      data := data
      priority := priority
      created_at := now
      user_id := user_id
      project_id := project_id
      status := .pending
      result := none
      error := none
      dependencies := dependencies }
  (task_id,
   { s with
      task_queue := s.task_queue ++ [(priority.value, now, task)]
      next_id := s.next_id + 1 })

/-- Embedding of `start_monitoring` (lines 136-149): unconditionally create max_workers new
worker loops plus one message broker and one performance monitor. -/
def start_monitoring (s : KernelState) : KernelState :=
  { s with
      worker_tasks := s.worker_tasks ++ (List.range s.max_workers).map (fun i => "worker-" ++ toString i)
      broker_loops := s.broker_loops + 1
      monitor_loops := s.monitor_loops + 1 }

/-- Heap order of asyncio.PriorityQueue on the pushed tuples:
lexicographic on (priority_value, timestamp). -/
def entryLe (a b : Nat × Nat × AITask) : Bool :=
  decide (a.1 < b.1 ∨ (a.1 = b.1 ∧ a.2.1 ≤ b.2.1))

/-- Embedding of `task_queue.get()` on the min-heap: remove and return the entry that is
smallest in (priority_value, timestamp); none when the queue is empty
(the 1 s wait_for timeout path). Ties on both keys cannot arise in the
executions considered (distinct clock reads). -/
def popMin : List (Nat × Nat × AITask) → Option ((Nat × Nat × AITask) × List (Nat × Nat × AITask))
  | [] => none
  | e :: es =>
    match popMin es with
    | none => some (e, [])
    | some (m, rest) => if entryLe e m then some (e, es) else some (m, e :: rest)

/-- Embedding of `_check_dependencies` (lines 258-265): every dependency id must be in
completed_tasks with status COMPLETED. -/
def check_dependencies (s : KernelState) (t : AITask) : Bool :=
  t.dependencies.all (fun dep =>
    match dictLookup dep s.completed_tasks with
    | none => false
    | some dt => decide (dt.status = TaskStatus.completed))

/-- Embedding of `_summarize_result` (lines 309-316). -/
def summarize_result (r : ResultDict) : SummaryProj :=
  { rtype := dictLookup "type" r
    rstatus := dictLookup "status" r
    key_outputs := (r.map Prod.fst).take 5 }

/-- Embedding of `_get_task_context` (lines 267-284): vault entry of the user and project
keys when set and present, plus results of completed dependencies
(a dependency with a missing or empty/falsy result is skipped, line 281). -/
def get_task_context (s : KernelState) (t : AITask) : TaskContext :=
  { user :=
      match t.user_id with
      | some uid => dictLookup uid s.memory_vault
      | none => none
    project :=
      match t.project_id with
      | some pid => dictLookup pid s.memory_vault
      | none => none
    dependency_results :=
      t.dependencies.filterMap (fun dep =>
        match dictLookup dep s.completed_tasks with
        | some dt =>
          match dt.result with
          | some r => if r = [] then none else some (dep, r)
          | none => none
        | none => none) }

/-- Embedding of `_update_memory_vault` (lines 286-307): only the user_id branch exists in
the source; the vault entry (its "recent_tasks" list) gets the summary
appended and is trimmed to the last 50 entries. -/
def update_memory_vault (t : AITask) (result : ResultDict)
    (vault : List (String × List ResultSummary)) : List (String × List ResultSummary) :=
  match t.user_id with
  | none => vault
  | some uid =>
    let entry := (dictLookup uid vault).getD []
    let entry := entry ++
      [{ task_id := t.id
         module := t.module
         action := t.action
         result_summary := summarize_result result
         timestamp := t.created_at }]
    let entry := if entry.length > 50 then entry.drop (entry.length - 50) else entry
    dictInsert uid entry vault

/-- Embedding of `_update_performance_metrics` (lines 368-387). -/
def update_performance_metrics (module : String) (ptime : Nat) (success : Bool)
    (pm : PerfMetrics) : PerfMetrics :=
  let mm := (dictLookup module pm.module_performance).getD
    { total_tasks := 0, total_time := 0, success_count := 0, error_count := 0 }
  let mm :=
    { mm with
        total_tasks := mm.total_tasks + 1
        total_time := mm.total_time + ptime
        success_count := if success then mm.success_count + 1 else mm.success_count
        error_count := if success then mm.error_count else mm.error_count + 1 }
  { tasks_processed := pm.tasks_processed + 1
    module_performance := dictInsert module mm pm.module_performance }

/-- Embedding of `_broadcast_event` (lines 339-346): enqueue the event on the broadcast channel. -/
def broadcast_event (etype : String) (d : EventData) (s : KernelState) : KernelState :=
  { s with broadcast_channel := s.broadcast_channel ++ [{ etype := etype, data := d }] }

/-- Start of `_process_task` (lines 180-181): mark RUNNING and record in active_tasks. -/
def begin_task (t : AITask) (s : KernelState) : KernelState :=
  { s with active_tasks := dictInsert t.id { t with status := .running } s.active_tasks }

/-- Terminal update of the task record by `_process_task`: lines 209-210 on
success, lines 229-230 on failure. -/
def applyOutcome (o : ExecOutcome) (t : AITask) : AITask :=
  match o with
  | .success r => { t with result := some r, status := .completed }
  | .failure msg => { t with status := .failed, error := some msg }

/-- Ordering used at lines 251-254: `sorted(..., key=lambda x: x[1].created_at)`.
Python's sorted is a stable sort, as is insertionSort, so they agree entrywise. -/
def byCreated (a b : String × AITask) : Prop := a.2.created_at ≤ b.2.created_at

instance : DecidableRel byCreated := fun a b => Nat.decLe a.2.created_at b.2.created_at

instance : IsTotal (String × AITask) byCreated :=
  ⟨fun a b => Nat.le_total a.2.created_at b.2.created_at⟩

instance : IsTrans (String × AITask) byCreated :=
  ⟨fun _ _ _ hab hbc => Nat.le_trans hab hbc⟩

/-- Eviction at lines 249-256: when the completed mapping holds more than 1000
entries, delete the keys of the first 500 entries of the list sorted by
created_at (deleting those keys from a mapping with unique keys removes
exactly the entries whose key is listed, order preserved). -/
def evict_completed (l : List (String × AITask)) : List (String × AITask) :=
  if l.length > 1000 then
    l.filter (fun e =>
      decide (e.1 ∉ ((List.insertionSort byCreated l).take 500).map Prod.fst))
  else l

/-- Completion half of `_process_task` (lines 183-256), entered when the
awaited module invocation returns: on success store the result, mark
COMPLETED, update the vault, broadcast task_completed, count a success; on
failure mark FAILED, store the error string, count a failure, broadcast
task_failed; in all cases (finally block) move the task from active_tasks to
completed_tasks and apply eviction. A no-op when the id is not active. -/
def finish_task (o : ExecOutcome) (ptime : Nat) (id : String) (s : KernelState) : KernelState :=
  match dictLookup id s.active_tasks with
  | none => s
  | some task0 =>
    let task := applyOutcome o task0
    let s :=
      match o with
      | .success r =>
        let s := { s with memory_vault := update_memory_vault task r s.memory_vault }
        let s := broadcast_event "task_completed" (.task_completed task.id task.module r) s
        { s with performance_metrics :=
            update_performance_metrics task.module ptime true s.performance_metrics }
      | .failure msg =>
        let s := { s with performance_metrics :=
            update_performance_metrics task.module ptime false s.performance_metrics }
        broadcast_event "task_failed" (.task_failed task.id task.module msg) s
    { s with
        active_tasks := dictErase id s.active_tasks
        completed_tasks := evict_completed (dictInsert id task s.completed_tasks) }

/-- The module resolution of `_process_task` (lines 188-206): an unregistered
module name raises ValueError("Unknown AI module: ...") which the except arm
turns into the failure outcome; otherwise the module's operation is invoked
on the task data merged with the context. -/
def module_outcome (invoke : Invoke) (s : KernelState) (t : AITask) : ExecOutcome :=
  if t.module ∈ s.ai_modules then
    invoke t.module t.action t.data (get_task_context s t)
  else
    .failure ("Unknown AI module: " ++ t.module)

/-- Embedding of `_process_task` run to completion with no interleaved operation. -/
def process_task (invoke : Invoke) (ptime : Nat) (t : AITask) (s : KernelState) : KernelState :=
  finish_task (module_outcome invoke s t) ptime t.id (begin_task t s)

/-- One full iteration of `_worker` (lines 151-176): pop the queue minimum; if
the popped task's dependencies are unmet, push it back unchanged and sleep;
otherwise process it. No-op when the pop times out on an empty queue. -/
def worker_step (invoke : Invoke) (ptime : Nat) (s : KernelState) : KernelState :=
  match popMin s.task_queue with
  | none => s
  | some ((p, ts, t), rest) =>
    if check_dependencies s t then
      process_task invoke ptime t { s with task_queue := rest }
    else
      { s with task_queue := rest ++ [(p, ts, t)] }

/-- The pop/gate/claim part of a worker iteration, up to the suspension point
of the awaited module call (line 201); used to interleave other operations
with an in-flight execution. -/
def worker_begin_step (s : KernelState) : KernelState :=
  match popMin s.task_queue with
  | none => s
  | some ((p, ts, t), rest) =>
    if check_dependencies s t then
      begin_task t { s with task_queue := rest }
    else
      { s with task_queue := rest ++ [(p, ts, t)] }

/-- Result mapping of `execute_command` (lines 407-441). -/
inductive CmdResult where
  | status_report (active_count queue_size : Nat) (perf : PerfMetrics)
  | task_report (t : AITask)
  | cancel_ok
  | err (msg : String)
deriving DecidableEq, Repr

/-- Whether the returned mapping carries an "error" key. -/
def CmdResult.hasError : CmdResult → Bool
  | .err _ => true
  | _ => false

/-- Embedding of `execute_command` (lines 407-441). The command is the received mapping;
`command.get("type")` and `command.get("task_id")` are its lookups (a missing
key reads as None, and `None in dict` is false). -/
def execute_command (cmd : List (String × String)) (s : KernelState) :
    CmdResult × KernelState :=
  if dictLookup "type" cmd = some "get_status" then
    (.status_report s.active_tasks.length s.task_queue.length s.performance_metrics, s)
  else if dictLookup "type" cmd = some "get_task_status" then
    match dictLookup "task_id" cmd with
    | some tid =>
      (match dictLookup tid s.active_tasks with
       | some t => (.task_report t, s)
       | none =>
         match dictLookup tid s.completed_tasks with
         | some t => (.task_report t, s)
         | none => (.err "Task not found", s))
    | none => (.err "Task not found", s)
  else if dictLookup "type" cmd = some "cancel_task" then
    match dictLookup "task_id" cmd with
    | some tid =>
      (match dictLookup tid s.active_tasks with
       | some t =>
         (.cancel_ok,
          { s with active_tasks := dictInsert tid { t with status := .cancelled } s.active_tasks })
       | none => (.err "Task not found or not active", s))
    | none => (.err "Task not found or not active", s)
  else
    (.err ("Unknown command type: "
      ++ (match dictLookup "type" cmd with | some c => c | none => "None")), s)

/-- The kernel operations that mutate state, for statements quantifying over
an arbitrary interleaving of the public surface and the worker loops. -/
inductive KOp where
  | submit (module action : String) (data : ResultDict) (priority : Priority)
      (user_id project_id : Option String) (dependencies : List String) (now : Nat)
  | worker_begin
  | worker_finish (id : String) (outcome : ExecOutcome) (ptime : Nat)
  | command (cmd : List (String × String))
  | start_mon
  | register (name : String)

/-- State effect of one kernel operation. -/
def step : KOp → KernelState → KernelState
  | .submit m a d p u pr deps now, s => (submit_task m a d p u pr deps now s).2
  | .worker_begin, s => worker_begin_step s
  | .worker_finish id o pt, s => finish_task o pt id s
  | .command cmd, s => (execute_command cmd s).2
  | .start_mon, s => start_monitoring s
  | .register n, s => register_ai_module n s

/-- error_count recorded for a module (0 when the module has no entry yet). -/
def module_error_count (s : KernelState) (m : String) : Nat :=
  match dictLookup m s.performance_metrics.module_performance with
  | some mm => mm.error_count
  | none => 0

/-! ### Concrete executions used by the claim theorems and witnesses -/

/-- Module behaviour that always succeeds with an empty result. -/
def invTrivial : Invoke := fun _ _ _ _ => .success []

/-- Module behaviour that always succeeds with a small result dictionary. -/
def invSmall : Invoke := fun _ _ _ _ => .success [("type", "demo"), ("status", "ok")]

/-- Three dependency-free tasks submitted in order NORMAL, CRITICAL, LOW
(the scenario of the priority-ordering property), module "m" registered. -/
def c1_state : KernelState :=
  (submit_task "m" "a" [] .low none none [] 3
    ((submit_task "m" "a" [] .critical none none [] 2
      ((submit_task "m" "a" [] .normal none none [] 1
        (register_ai_module "m" initState)).2)).2)).2

/-- The same scenario after a single worker runs three iterations. -/
def c1_run : KernelState :=
  worker_step invTrivial 0 (worker_step invTrivial 0 (worker_step invTrivial 0 c1_state))

/-- A pending task whose single dependency has FAILED. -/
def c2_dep_task : AITask :=
  { id := "task-b", module := "m", action := "a", data := [], priority := .normal,
    created_at := 5, user_id := none, project_id := none, status := .pending,
    result := none, error := none, dependencies := ["task-a"] }

/-- The FAILED dependency sitting in the completed set. -/
def c2_failed_dep : AITask :=
  { c2_dep_task with
      id := "task-a"
      status := .failed
      error := some "boom"
      dependencies := [] }

/-- Kernel state with the blocked task queued and the failed dependency completed. -/
def c2_state : KernelState :=
  { initState with
      task_queue := [(2, 5, c2_dep_task)]
      completed_tasks := [("task-a", c2_failed_dep)] }

/-- A task naming a module that was never registered. -/
def c3_task : AITask :=
  { id := "t3", module := "ghost", action := "a", data := [], priority := .normal,
    created_at := 0, user_id := none, project_id := none, status := .pending,
    result := none, error := none, dependencies := [] }

/-- C4 trace, step 1: one task submitted, module registered. -/
def c4_state1 : KernelState :=
  (submit_task "m" "a" [] .normal none none [] 1 (register_ai_module "m" initState)).2

/-- C4 trace, step 2: a worker claims the task (RUNNING, module call in flight). -/
def c4_state2 : KernelState := worker_begin_step c4_state1

/-- C4 trace, step 3: the task is cancelled while RUNNING. -/
def c4_state3 : KernelState :=
  (execute_command [("type", "cancel_task"), ("task_id", "task-0")] c4_state2).2

/-- C4 trace, step 4: the in-flight module call returns successfully. -/
def c4_state4 : KernelState := finish_task (.success []) 0 "task-0" c4_state3

/-- A terminal task resting in the completed set (for the amended C4 witness). -/
def c4_done_task : AITask :=
  { id := "task-d", module := "m", action := "a", data := [], priority := .normal,
    created_at := 0, user_id := none, project_id := none, status := .completed,
    result := some [], error := none, dependencies := [] }

/-- State holding only that terminal task. -/
def c4_done_state : KernelState :=
  { initState with completed_tasks := [("task-d", c4_done_task)] }

/-- One task submitted and still PENDING in the queue (never claimed). -/
def c5_state : KernelState :=
  (submit_task "m" "a" [] .normal none none [] 1 initState).2

/-- A RUNNING task recorded in active_tasks (for the amended C5 witness). -/
def c5_running_task : AITask :=
  { id := "task-r", module := "m", action := "a", data := [], priority := .normal,
    created_at := 0, user_id := none, project_id := none, status := .running,
    result := none, error := none, dependencies := [] }

/-- State with that task claimed by a worker. -/
def c5_running_state : KernelState :=
  { initState with active_tasks := [("task-r", c5_running_task)] }

/-- A task carrying only a project_id context key. -/
def c7_task : AITask :=
  { id := "t1", module := "m", action := "a", data := [], priority := .normal,
    created_at := 0, user_id := none, project_id := some "p", status := .pending,
    result := none, error := none, dependencies := [] }

/-- That task processed to successful completion. -/
def c7_run : KernelState := process_task invSmall 0 c7_task (register_ai_module "m" initState)

/-- A freshly submitted-shaped task (result and error unset), for C8. -/
def c8_task : AITask :=
  { id := "t8", module := "m", action := "a", data := [], priority := .normal,
    created_at := 0, user_id := none, project_id := none, status := .pending,
    result := none, error := none, dependencies := [] }

/-! ### Mapping lemmas -/

theorem dictLookup_insert_self {α : Type} (k : String) (v : α) (l : List (String × α)) :
    dictLookup k (dictInsert k v l) = some v := by
  induction l with
  | nil => simp [dictInsert, dictLookup]
  | cons e rest ih =>
    by_cases h : e.1 = k
    · simp [dictInsert, dictLookup, h]
    · simp [dictInsert, dictLookup, h, ih]

theorem dictLookup_insert_ne {α : Type} {k k' : String} (hne : k' ≠ k) (v : α)
    (l : List (String × α)) :
    dictLookup k' (dictInsert k v l) = dictLookup k' l := by
  induction l with
  | nil => simp [dictInsert, dictLookup, Ne.symm hne]
  | cons e rest ih =>
    by_cases h : e.1 = k
    · subst h
      simp [dictInsert, dictLookup, Ne.symm hne]
    · by_cases h2 : e.1 = k'
      · simp [dictInsert, dictLookup, h, h2, hne]
      · simp [dictInsert, dictLookup, h, h2, ih]

theorem dictInsert_of_not_mem {α : Type} {k : String} {l : List (String × α)}
    (h : k ∉ l.map Prod.fst) (v : α) :
    dictInsert k v l = l ++ [(k, v)] := by
  induction l with
  | nil => simp [dictInsert]
  | cons e rest ih =>
    simp only [List.map_cons, List.mem_cons] at h
    push_neg at h
    simp [dictInsert, Ne.symm h.1, ih h.2]

theorem mem_keys_dictInsert {α : Type} {x k : String} {v : α} {l : List (String × α)} :
    x ∈ (dictInsert k v l).map Prod.fst → x = k ∨ x ∈ l.map Prod.fst := by
  induction l with
  | nil =>
    intro hmem
    simp [dictInsert] at hmem
    exact Or.inl hmem
  | cons e rest ih =>
    intro hmem
    by_cases hk : e.1 = k
    · simp only [dictInsert, if_pos hk, List.map_cons, List.mem_cons] at hmem
      rcases hmem with h | h
      · exact Or.inl h
      · right
        simp [h]
    · simp only [dictInsert, if_neg hk, List.map_cons, List.mem_cons] at hmem
      rcases hmem with h | h
      · right
        simp [h]
      · rcases ih h with h2 | h2
        · exact Or.inl h2
        · right
          simp [h2]

theorem keys_dictInsert_nodup {α : Type} {l : List (String × α)}
    (h : (l.map Prod.fst).Nodup) (k : String) (v : α) :
    ((dictInsert k v l).map Prod.fst).Nodup := by
  induction l with
  | nil => simp [dictInsert]
  | cons e rest ih =>
    simp only [List.map_cons, List.nodup_cons] at h
    by_cases hk : e.1 = k
    · subst hk
      simpa [dictInsert] using h
    · have hrest := ih h.2
      simp only [dictInsert, if_neg hk, List.map_cons, List.nodup_cons]
      refine ⟨?_, hrest⟩
      intro hmem
      rcases mem_keys_dictInsert hmem with heq | hmem2
      · exact hk heq
      · exact h.1 hmem2

theorem dictLookup_none_of_not_mem {α : Type} {k : String} {l : List (String × α)}
    (h : k ∉ l.map Prod.fst) :
    dictLookup k l = none := by
  induction l with
  | nil => rfl
  | cons e rest ih =>
    simp only [List.map_cons, List.mem_cons] at h
    push_neg at h
    simp [dictLookup, Ne.symm h.1, ih h.2]

theorem entry_eq_of_key_eq {α : Type} {l : List (String × α)}
    (hnd : (l.map Prod.fst).Nodup) {a b : String × α}
    (ha : a ∈ l) (hb : b ∈ l) (hk : a.1 = b.1) : a = b := by
  induction l with
  | nil => cases ha
  | cons e rest ih =>
    simp only [List.map_cons, List.nodup_cons] at hnd
    rcases List.mem_cons.mp ha with ha' | ha' <;> rcases List.mem_cons.mp hb with hb' | hb'
    · rw [ha', hb']
    · exfalso
      apply hnd.1
      subst ha'
      rw [hk]
      exact List.mem_map.mpr ⟨b, hb', rfl⟩
    · exfalso
      apply hnd.1
      subst hb'
      rw [← hk]
      exact List.mem_map.mpr ⟨a, ha', rfl⟩
    · exact ih hnd.2 ha' hb'

theorem dictLookup_filter {α : Type} {l : List (String × α)}
    (hnd : (l.map Prod.fst).Nodup) {k : String} {v : α}
    (hl : dictLookup k l = some v) (p : String × α → Bool) :
    dictLookup k (l.filter p) = some v ∨ dictLookup k (l.filter p) = none := by
  induction l with
  | nil => simp [dictLookup] at hl
  | cons e rest ih =>
    simp only [List.map_cons, List.nodup_cons] at hnd
    by_cases hk : e.1 = k
    · simp only [dictLookup, if_pos hk] at hl
      injection hl with hv
      by_cases hp : p e
      · left
        rw [List.filter_cons_of_pos hp]
        simp [dictLookup, hk, hv]
      · right
        rw [List.filter_cons_of_neg hp]
        apply dictLookup_none_of_not_mem
        intro hmem
        rcases List.mem_map.mp hmem with ⟨x, hx, hxk⟩
        exact hnd.1 (hk ▸ List.mem_map.mpr ⟨x, List.mem_of_mem_filter hx, hxk⟩)
    · simp only [dictLookup, if_neg hk] at hl
      by_cases hp : p e
      · rw [List.filter_cons_of_pos hp]
        simp only [dictLookup, if_neg hk]
        exact ih hnd.2 hl
      · rw [List.filter_cons_of_neg hp]
        exact ih hnd.2 hl

theorem length_dictInsert_le {α : Type} (k : String) (v : α) (l : List (String × α)) :
    (dictInsert k v l).length ≤ l.length + 1 := by
  induction l with
  | nil => simp [dictInsert]
  | cons e rest ih =>
    by_cases h : e.1 = k
    · simp [dictInsert, h]
    · simp only [dictInsert, if_neg h, List.length_cons]
      omega

/-- Unfolding of the failure arm of `finish_task` for a claimed task. -/
theorem finish_task_failure (msg : String) (ptime : Nat) (id : String) (s : KernelState)
    (t0 : AITask) (hlk : dictLookup id s.active_tasks = some t0) :
    finish_task (.failure msg) ptime id s =
      { s with
          performance_metrics :=
            update_performance_metrics t0.module ptime false s.performance_metrics
          broadcast_channel := s.broadcast_channel
            ++ [{ etype := "task_failed", data := .task_failed t0.id t0.module msg }]
          active_tasks := dictErase id s.active_tasks
          completed_tasks :=
            evict_completed
              (dictInsert id { t0 with status := .failed, error := some msg }
                s.completed_tasks) } := by
  simp only [finish_task, hlk, applyOutcome, broadcast_event]

/-- Unfolding of the success arm of `finish_task` for a claimed task. -/
theorem finish_task_success (r : ResultDict) (ptime : Nat) (id : String) (s : KernelState)
    (t0 : AITask) (hlk : dictLookup id s.active_tasks = some t0) :
    finish_task (.success r) ptime id s =
      { s with
          memory_vault :=
            update_memory_vault { t0 with result := some r, status := .completed } r
              s.memory_vault
          broadcast_channel := s.broadcast_channel
            ++ [{ etype := "task_completed", data := .task_completed t0.id t0.module r }]
          performance_metrics :=
            update_performance_metrics t0.module ptime true s.performance_metrics
          active_tasks := dictErase id s.active_tasks
          completed_tasks :=
            evict_completed
              (dictInsert id { t0 with result := some r, status := .completed }
                s.completed_tasks) } := by
  simp only [finish_task, hlk, applyOutcome, broadcast_event]

/-- A failure update increments the module's error counter by exactly one. -/
theorem errcount_update_failure (m : String) (ptime : Nat) (pm : PerfMetrics) :
    (match dictLookup m (update_performance_metrics m ptime false pm).module_performance with
     | some mm => mm.error_count
     | none => 0)
      = (match dictLookup m pm.module_performance with
         | some mm => mm.error_count
         | none => 0) + 1 := by
  unfold update_performance_metrics
  rw [dictLookup_insert_self]
  cases h : dictLookup m pm.module_performance <;> simp [h]

/-- Eviction never rewrites a surviving entry: a key present before eviction
is afterwards either untouched or gone (unique keys assumed, as for a dict). -/
theorem dictLookup_evict {l : List (String × AITask)} (hnd : (l.map Prod.fst).Nodup)
    {k : String} {v : AITask} (hl : dictLookup k l = some v) :
    dictLookup k (evict_completed l) = some v ∨ dictLookup k (evict_completed l) = none := by
  unfold evict_completed
  split
  · exact dictLookup_filter hnd hl _
  · left
    exact hl

/-- Embedding of `execute_command` never touches the completed set. -/
theorem execute_command_completed_const (cmd : List (String × String)) (s : KernelState) :
    (execute_command cmd s).2.completed_tasks = s.completed_tasks := by
  unfold execute_command
  repeat' split
  all_goals rfl

/-! ### Claim theorems -/

/-- Claim C1. The queue is a min-heap on the raw enum value (priority_value,
timestamp are pushed at line 131 and asyncio.PriorityQueue returns the
smallest tuple), so a single worker dispatches the numerically LOWEST
priority first: with tasks submitted in order NORMAL (task-0), CRITICAL
(task-1), LOW (task-2) and no dependencies, processing begins and completes
in order LOW, NORMAL, CRITICAL — the reverse of the claimed
CRITICAL, NORMAL, LOW. This theorem evaluates the embedded code at that
failing input: the completed set lists the tasks in the order the single
worker processed them. -/
theorem C1_priority_inversion :
    c1_state.task_queue.map (fun e => (e.2.2.id, e.2.2.priority)) =
      [("task-0", Priority.normal), ("task-1", Priority.critical), ("task-2", Priority.low)]
    ∧ c1_run.completed_tasks.map (fun e => (e.1, e.2.status)) =
      [("task-2", TaskStatus.completed), ("task-0", TaskStatus.completed),
       ("task-1", TaskStatus.completed)] := by
  constructor
  · rfl
  · rfl

/-- Claim C9 counterexample. `start_monitoring` has no idempotence guard:
after one call the kernel has 4 worker loops, after a second call it has 8,
so the second call does not leave the number of running worker loops
unchanged. -/
theorem C9_counterexample :
    (start_monitoring initState).worker_tasks.length = 4
    ∧ (start_monitoring (start_monitoring initState)).worker_tasks.length = 8 := by
  constructor
  · rfl
  · rfl

/-- Claim C9, amended: every invocation of `start_monitoring` spawns
max_workers additional worker loops and one additional message broker and
performance monitor; it is not idempotent. -/
theorem C9_start_accumulates (s : KernelState) :
    (start_monitoring s).worker_tasks.length = s.worker_tasks.length + s.max_workers
    ∧ (start_monitoring s).broker_loops = s.broker_loops + 1
    ∧ (start_monitoring s).monitor_loops = s.monitor_loops + 1 := by
  refine ⟨?_, rfl, rfl⟩
  simp [start_monitoring]

/-- Claim C5 counterexample. A submitted task that no worker has claimed is
PENDING — by the claim (and the spec state machine) it is cancellable — yet
`cancel_task` only consults active_tasks, which holds claimed tasks, so the
command reports "Task not found or not active" and the state is unchanged. -/
theorem C5_counterexample :
    c5_state.task_queue.map (fun e => (e.2.2.id, e.2.2.status)) =
      [("task-0", TaskStatus.pending)]
    ∧ execute_command [("type", "cancel_task"), ("task_id", "task-0")] c5_state
        = (.err "Task not found or not active", c5_state) := by
  constructor
  · rfl
  · rfl

/-- Claim C5, amended: `cancel_task` marks the task CANCELLED exactly when its
id is in the active_tasks map, i.e. a worker has already claimed it (set it
RUNNING); for every other id — still-queued PENDING tasks included — it
returns the not-found-or-not-active error and leaves the state unchanged. -/
theorem C5_cancel_only_claimed (s : KernelState) (id : String) :
    (∀ t, dictLookup id s.active_tasks = some t →
        execute_command [("type", "cancel_task"), ("task_id", id)] s
          = (.cancel_ok,
             { s with active_tasks := dictInsert id { t with status := .cancelled } s.active_tasks }))
    ∧ (dictLookup id s.active_tasks = none →
        execute_command [("type", "cancel_task"), ("task_id", id)] s
          = (.err "Task not found or not active", s)) := by
  constructor
  · intro t ht
    simp [execute_command, dictLookup, ht]
  · intro h
    simp [execute_command, dictLookup, h]

/-- Witness for the amended C5 theorem at a concrete claimed task. -/
theorem C5_cancel_only_claimed_witness :
    execute_command [("type", "cancel_task"), ("task_id", "task-r")] c5_running_state
      = (.cancel_ok,
         { c5_running_state with
             active_tasks :=
               dictInsert "task-r" { c5_running_task with status := .cancelled }
                 c5_running_state.active_tasks }) :=
  (C5_cancel_only_claimed c5_running_state "task-r").1 c5_running_task (by rfl)

/-- Claim C7 counterexample. A task with project_id = "p" (and no user_id)
completes successfully, yet the memory vault stays empty: the code's
`_update_memory_vault` has only a user_id branch, so no summary is ever
appended under a project_id key. -/
theorem C7_counterexample :
    c7_task.project_id = some "p"
    ∧ (dictLookup "t1" c7_run.completed_tasks).map AITask.status = some .completed
    ∧ c7_run.memory_vault = [] := by
  refine ⟨rfl, ?_, ?_⟩
  · rfl
  · rfl

/-- Claim C7, amended: on successful completion a result summary is appended
(and the entry trimmed to its most recent 50) only under the task's user_id
key; every other vault key — project_id keys included — is untouched, and a
task without a user_id updates nothing. -/
theorem C7_vault_updates_user_only (t : AITask) (r : ResultDict)
    (vault : List (String × List ResultSummary)) :
    (t.user_id = none → update_memory_vault t r vault = vault)
    ∧ ∀ uid, t.user_id = some uid →
        (∀ k, k ≠ uid → dictLookup k (update_memory_vault t r vault) = dictLookup k vault)
        ∧ dictLookup uid (update_memory_vault t r vault) = some (
            let entry := ((dictLookup uid vault).getD []) ++
              [{ task_id := t.id, module := t.module, action := t.action,
                 result_summary := summarize_result r, timestamp := t.created_at }]
            if entry.length > 50 then entry.drop (entry.length - 50) else entry) := by
  constructor
  · intro h
    simp [update_memory_vault, h]
  · intro uid huid
    constructor
    · intro k hk
      simp only [update_memory_vault, huid]
      exact dictLookup_insert_ne hk _ _
    · simp only [update_memory_vault, huid]
      exact dictLookup_insert_self _ _ _

/-- Claim C2, confirmed: `_check_dependencies` returns true iff every
dependency id names an entry of the completed set whose status is COMPLETED
(so a FAILED, CANCELLED or evicted dependency is never ready), and a worker
that pops a task failing the check pushes it back with its original
priority and timestamp without starting it — the only state change of that
iteration is the queue rotation. -/
theorem C2_dependency_gate (s : KernelState) (t : AITask) :
    (check_dependencies s t = true ↔
      ∀ dep ∈ t.dependencies, ∃ dt, dictLookup dep s.completed_tasks = some dt ∧
        dt.status = TaskStatus.completed)
    ∧ ∀ invoke ptime p ts rest,
        popMin s.task_queue = some ((p, ts, t), rest) →
        check_dependencies s t = false →
        worker_step invoke ptime s = { s with task_queue := rest ++ [(p, ts, t)] } := by
  constructor
  · unfold check_dependencies
    rw [List.all_eq_true]
    constructor
    · intro h dep hdep
      have h2 := h dep hdep
      revert h2
      cases hl : dictLookup dep s.completed_tasks with
      | none => simp
      | some dt =>
        intro h2
        refine ⟨dt, rfl, ?_⟩
        simpa using h2
    · intro h dep hdep
      obtain ⟨dt, hl, hs⟩ := h dep hdep
      rw [hl]
      simp [hs]
  · intro invoke ptime p ts rest hpop hdep
    unfold worker_step
    rw [hpop]
    simp [hdep]

/-- Witness for C2 at a queued task whose only dependency FAILED: the check is
false and the worker re-queues the task instead of running it. -/
theorem C2_dependency_gate_witness :
    check_dependencies c2_state c2_dep_task = false
    ∧ worker_step invTrivial 0 c2_state
        = { c2_state with task_queue := [] ++ [(2, 5, c2_dep_task)] } := by
  refine ⟨by rfl, ?_⟩
  exact (C2_dependency_gate c2_state c2_dep_task).2 invTrivial 0 2 5 [] (by rfl) (by rfl)

/-- Claim C3, confirmed: dispatching a task whose module is not registered
puts the task in the completed set with status FAILED and error
"Unknown AI module: ...", publishes a task_failed event, increments that
module's failure counter, and leaves the queue as it was (no stall: the
worker's next iteration pops the untouched queue). The length bound keeps
the just-finished task clear of the eviction threshold. -/
theorem C3_unknown_module_fails (invoke : Invoke) (s : KernelState) (t : AITask) (ptime : Nat)
    (hmod : t.module ∉ s.ai_modules)
    (hlen : s.completed_tasks.length ≤ 999) :
    ∃ t', dictLookup t.id (process_task invoke ptime t s).completed_tasks = some t'
      ∧ t'.status = .failed
      ∧ t'.error = some ("Unknown AI module: " ++ t.module)
      ∧ (process_task invoke ptime t s).broadcast_channel
          = s.broadcast_channel
            ++ [{ etype := "task_failed",
                  data := .task_failed t.id t.module ("Unknown AI module: " ++ t.module) }]
      ∧ module_error_count (process_task invoke ptime t s) t.module
          = module_error_count s t.module + 1
      ∧ (process_task invoke ptime t s).task_queue = s.task_queue := by
  have hout : module_outcome invoke s t = .failure ("Unknown AI module: " ++ t.module) := by
    simp [module_outcome, hmod]
  have hlk : dictLookup t.id (begin_task t s).active_tasks
      = some { t with status := .running } := by
    simp [begin_task, dictLookup_insert_self]
  have hstep : process_task invoke ptime t s
      = finish_task (.failure ("Unknown AI module: " ++ t.module)) ptime t.id (begin_task t s) := by
    rw [process_task, hout]
  have hfin := finish_task_failure ("Unknown AI module: " ++ t.module) ptime t.id
    (begin_task t s) { t with status := .running } hlk
  have hev : evict_completed
      (dictInsert t.id
        { { t with status := TaskStatus.running } with
            status := .failed, error := some ("Unknown AI module: " ++ t.module) }
        (begin_task t s).completed_tasks)
      = dictInsert t.id
        { { t with status := TaskStatus.running } with
            status := .failed, error := some ("Unknown AI module: " ++ t.module) }
        (begin_task t s).completed_tasks := by
    unfold evict_completed
    rw [if_neg]
    intro hgt
    have hle := length_dictInsert_le t.id
      { { t with status := TaskStatus.running } with
          status := .failed, error := some ("Unknown AI module: " ++ t.module) }
      (begin_task t s).completed_tasks
    have : (begin_task t s).completed_tasks.length = s.completed_tasks.length := rfl
    omega
  rw [hstep, hfin]
  refine ⟨{ { t with status := TaskStatus.running } with
      status := .failed, error := some ("Unknown AI module: " ++ t.module) },
    ?_, rfl, rfl, rfl, ?_, rfl⟩
  · simp only [hev]
    exact dictLookup_insert_self _ _ _
  · simp only [module_error_count]
    exact errcount_update_failure t.module ptime s.performance_metrics

/-- Witness for C3: a task naming the unregistered module "ghost" processed
against the fresh kernel. -/
theorem C3_unknown_module_fails_witness :
    c3_task.module ∉ initState.ai_modules
    ∧ initState.completed_tasks.length ≤ 999
    ∧ ∃ t', dictLookup "t3" (process_task invTrivial 0 c3_task initState).completed_tasks
          = some t'
        ∧ t'.status = .failed
        ∧ t'.error = some ("Unknown AI module: " ++ "ghost") := by
  refine ⟨by decide, by decide, ?_⟩
  obtain ⟨t', h1, h2, h3, _⟩ :=
    C3_unknown_module_fails invTrivial initState c3_task 0 (by decide) (by decide)
  exact ⟨t', h1, h2, h3⟩

/-- Claim C8, confirmed: the terminal update of a task whose result and error
fields are still unset (as every submitted task's are) lands in COMPLETED or
FAILED, with result set and error unset on COMPLETED, error set and result
unset on FAILED, and never both populated. -/
theorem C8_result_error_exclusive (o : ExecOutcome) (t : AITask)
    (hr : t.result = none) (he : t.error = none) :
    ((applyOutcome o { t with status := .running }).status = .completed ∨
     (applyOutcome o { t with status := .running }).status = .failed)
    ∧ ((applyOutcome o { t with status := .running }).status = .completed →
        (applyOutcome o { t with status := .running }).result.isSome = true
        ∧ (applyOutcome o { t with status := .running }).error = none)
    ∧ ((applyOutcome o { t with status := .running }).status = .failed →
        (applyOutcome o { t with status := .running }).error.isSome = true
        ∧ (applyOutcome o { t with status := .running }).result = none)
    ∧ ¬((applyOutcome o { t with status := .running }).result.isSome = true
        ∧ (applyOutcome o { t with status := .running }).error.isSome = true) := by
  cases o <;> simp [applyOutcome, hr, he]

/-- Witness for C8 at a concrete successful outcome on a freshly submitted task. -/
theorem C8_result_error_exclusive_witness :
    c8_task.result = none ∧ c8_task.error = none
    ∧ (((applyOutcome (.success [("a", "b")]) { c8_task with status := .running }).status
          = .completed ∨
        (applyOutcome (.success [("a", "b")]) { c8_task with status := .running }).status
          = .failed)
       ∧ ((applyOutcome (.success [("a", "b")]) { c8_task with status := .running }).status
            = .completed →
          (applyOutcome (.success [("a", "b")]) { c8_task with status := .running }).result.isSome
            = true
          ∧ (applyOutcome (.success [("a", "b")]) { c8_task with status := .running }).error
            = none)
       ∧ ((applyOutcome (.success [("a", "b")]) { c8_task with status := .running }).status
            = .failed →
          (applyOutcome (.success [("a", "b")]) { c8_task with status := .running }).error.isSome
            = true
          ∧ (applyOutcome (.success [("a", "b")]) { c8_task with status := .running }).result
            = none)
       ∧ ¬((applyOutcome (.success [("a", "b")]) { c8_task with status := .running }).result.isSome
            = true
          ∧ (applyOutcome (.success [("a", "b")]) { c8_task with status := .running }).error.isSome
            = true)) :=
  ⟨rfl, rfl, C8_result_error_exclusive (.success [("a", "b")]) c8_task rfl rfl⟩

/-- Claim C10, confirmed: `execute_command` is a total function of the command
mapping — a recognized type returns its documented result (status report;
task report or not-found error; cancellation or not-active error), an
unrecognized or missing type returns a mapping with an error entry, and the
commands that do not cancel leave the state unchanged. -/
theorem C10_execute_command_total (cmd : List (String × String)) (s : KernelState) :
    (∀ ct, dictLookup "type" cmd = some ct →
        ct ≠ "get_status" → ct ≠ "get_task_status" → ct ≠ "cancel_task" →
        execute_command cmd s = (.err ("Unknown command type: " ++ ct), s))
    ∧ (dictLookup "type" cmd = none →
        execute_command cmd s = (.err "Unknown command type: None", s))
    ∧ (dictLookup "type" cmd = some "get_status" →
        execute_command cmd s
          = (.status_report s.active_tasks.length s.task_queue.length s.performance_metrics, s))
    ∧ (dictLookup "type" cmd = some "get_task_status" →
        (execute_command cmd s).2 = s
        ∧ ((∃ t, (execute_command cmd s).1 = .task_report t)
           ∨ (execute_command cmd s).1 = .err "Task not found"))
    ∧ (dictLookup "type" cmd = some "cancel_task" →
        (execute_command cmd s).1 = .cancel_ok
        ∨ ((execute_command cmd s).1 = .err "Task not found or not active"
           ∧ (execute_command cmd s).2 = s)) := by
  refine ⟨?_, ?_, ?_, ?_, ?_⟩
  · intro ct hct h1 h2 h3
    simp [execute_command, hct, h1, h2, h3]
  · intro h
    have hs : "Unknown command type: " ++ "None" = "Unknown command type: None" := rfl
    simp [execute_command, h, hs]
  · intro h
    simp [execute_command, h]
  · intro h
    simp only [execute_command, h]
    cases h2 : dictLookup "task_id" cmd with
    | none => simp
    | some tid =>
      cases h3 : dictLookup tid s.active_tasks with
      | some t => simp [h3]
      | none =>
        cases h4 : dictLookup tid s.completed_tasks with
        | some t => simp [h3, h4]
        | none => simp [h3, h4]
  · intro h
    simp only [execute_command, h]
    cases h2 : dictLookup "task_id" cmd with
    | none => simp
    | some tid =>
      cases h3 : dictLookup tid s.active_tasks with
      | some t => simp [h3]
      | none => simp [h3]

/-- Witness for C10 at a command with an unrecognized type. -/
theorem C10_execute_command_total_witness :
    execute_command [("type", "bogus")] initState
      = (.err ("Unknown command type: " ++ "bogus"), initState) :=
  (C10_execute_command_total [("type", "bogus")] initState).1 "bogus" (by rfl)
    (by decide) (by decide) (by decide)

/-- Witness for the amended C7 theorem at a concrete task with a user_id. -/
theorem C7_vault_updates_user_only_witness :
    dictLookup "u" (update_memory_vault { c7_task with user_id := some "u" } [("k", "v")] [])
      = some [{ task_id := "t1", module := "m", action := "a",
                result_summary := summarize_result [("k", "v")], timestamp := 0 }]
    ∧ dictLookup "other" (update_memory_vault { c7_task with user_id := some "u" } [("k", "v")] [])
      = none := by
  have h := (C7_vault_updates_user_only { c7_task with user_id := some "u" } [("k", "v")] []).2
    "u" (by rfl)
  refine ⟨?_, ?_⟩
  · exact h.2
  · exact h.1 "other" (by decide)

/-- Claim C4 counterexample. The task "task-0" is claimed by a worker (RUNNING),
cancelled while the module call is in flight — its status is then the
terminal CANCELLED — and when the call returns successfully the worker
overwrites the status to COMPLETED (lines 209-210 run unconditionally): a
subsequent operation did change a terminal status. -/
theorem C4_counterexample :
    (dictLookup "task-0" c4_state3.active_tasks).map AITask.status = some .cancelled
    ∧ (dictLookup "task-0" c4_state4.completed_tasks).map AITask.status = some .completed := by
  constructor
  · rfl
  · rfl

/-- Claim C4, amended: a task that has reached the completed set (and is no
longer claimed by any worker) is stable — no kernel operation ever changes
its record; at most eviction removes it wholesale. The protection does NOT
extend to a task CANCELLED while RUNNING: its executing worker overwrites
the status to COMPLETED or FAILED when the module call returns (see the
counterexample). -/
theorem C4_terminal_in_completed_stable (s : KernelState) (op : KOp) (id : String) (t : AITask)
    (hnd : (s.completed_tasks.map Prod.fst).Nodup)
    (hc : dictLookup id s.completed_tasks = some t)
    (ha : dictLookup id s.active_tasks = none) :
    dictLookup id (step op s).completed_tasks = some t
    ∨ dictLookup id (step op s).completed_tasks = none := by
  cases op with
  | submit m a d p u pr deps now =>
    left
    exact hc
  | worker_begin =>
    left
    show dictLookup id (worker_begin_step s).completed_tasks = some t
    unfold worker_begin_step
    cases hp : popMin s.task_queue with
    | none => exact hc
    | some pr =>
      obtain ⟨⟨p, ts, tsk⟩, rest⟩ := pr
      cases hd : check_dependencies s tsk <;> simp only [hd] <;> exact hc
  | worker_finish idf o pt =>
    show dictLookup id (finish_task o pt idf s).completed_tasks = some t
      ∨ dictLookup id (finish_task o pt idf s).completed_tasks = none
    cases hl : dictLookup idf s.active_tasks with
    | none =>
      left
      simp only [finish_task, hl]
      exact hc
    | some t0 =>
      have hne : id ≠ idf := by
        intro heq
        rw [heq, hl] at ha
        cases ha
      cases o with
      | success r =>
        rw [finish_task_success r pt idf s t0 hl]
        have h1 : dictLookup id
            (dictInsert idf { t0 with result := some r, status := .completed }
              s.completed_tasks) = some t := by
          rw [dictLookup_insert_ne hne]
          exact hc
        exact dictLookup_evict (keys_dictInsert_nodup hnd idf _) h1
      | failure msg =>
        rw [finish_task_failure msg pt idf s t0 hl]
        have h1 : dictLookup id
            (dictInsert idf { t0 with status := .failed, error := some msg }
              s.completed_tasks) = some t := by
          rw [dictLookup_insert_ne hne]
          exact hc
        exact dictLookup_evict (keys_dictInsert_nodup hnd idf _) h1
  | command cmd =>
    left
    show dictLookup id (execute_command cmd s).2.completed_tasks = some t
    rw [execute_command_completed_const]
    exact hc
  | start_mon =>
    left
    exact hc
  | register n =>
    left
    exact hc

/-- Witness for the amended C4 theorem: cancelling a terminal completed task
leaves its record in place. -/
theorem C4_terminal_in_completed_stable_witness :
    dictLookup "task-d"
        (step (.command [("type", "cancel_task"), ("task_id", "task-d")]) c4_done_state).completed_tasks
      = some c4_done_task
    ∨ dictLookup "task-d"
        (step (.command [("type", "cancel_task"), ("task_id", "task-d")]) c4_done_state).completed_tasks
      = none :=
  C4_terminal_in_completed_stable c4_done_state
    (.command [("type", "cancel_task"), ("task_id", "task-d")]) "task-d" c4_done_task
    (by decide) (by rfl) (by rfl)

/-- Auxiliary: filtering out the keys of the first 500 entries of a sorted
permutation keeps exactly the remaining 501 of 1001 entries. -/
theorem evict_filter_length_aux (l L : List (String × AITask))
    (hnd : (l.map Prod.fst).Nodup) (hperm : L.Perm l) (hlen : l.length = 1001) :
    (l.filter (fun x => decide (x.1 ∉ (L.take 500).map Prod.fst))).length = 501 := by
  have hkeys : (L.map Prod.fst).Nodup := ((hperm.map Prod.fst).nodup_iff).mpr hnd
  have hLlen : L.length = 1001 := by rw [hperm.length_eq, hlen]
  have hsplit : L.take 500 ++ L.drop 500 = L := List.take_append_drop 500 L
  have htake : (L.take 500).filter (fun x => decide (x.1 ∉ (L.take 500).map Prod.fst)) = [] := by
    apply List.filter_eq_nil_iff.mpr
    intro a ha hpa
    exact (of_decide_eq_true hpa) (List.mem_map.mpr ⟨a, ha, rfl⟩)
  have hdrop : (L.drop 500).filter (fun x => decide (x.1 ∉ (L.take 500).map Prod.fst))
      = L.drop 500 := by
    apply List.filter_eq_self.mpr
    intro b hb
    apply decide_eq_true
    intro hmem
    have hnodup2 : ((L.take 500).map Prod.fst ++ (L.drop 500).map Prod.fst).Nodup := by
      rw [← List.map_append, hsplit]
      exact hkeys
    exact (List.nodup_append.mp hnodup2).2.2 hmem (List.mem_map.mpr ⟨b, hb, rfl⟩)
  have hfL : L.filter (fun x => decide (x.1 ∉ (L.take 500).map Prod.fst))
      = L.drop 500 := by
    have h1 : L.filter (fun x => decide (x.1 ∉ (L.take 500).map Prod.fst))
        = (L.take 500 ++ L.drop 500).filter
            (fun x => decide (x.1 ∉ (L.take 500).map Prod.fst)) := by
      rw [hsplit]
    rw [h1, List.filter_append, htake, hdrop, List.nil_append]
  have hflen : (l.filter (fun x => decide (x.1 ∉ (L.take 500).map Prod.fst))).length
      = (L.filter (fun x => decide (x.1 ∉ (L.take 500).map Prod.fst))).length :=
    ((hperm.filter (fun x => decide (x.1 ∉ (L.take 500).map Prod.fst))).length_eq).symm
  rw [hflen, hfL, List.length_drop, hLlen]

/-- When the 1000-entry bound is crossed (1001 entries after an insertion),
eviction leaves exactly 501 entries. -/
theorem evict_length_eq (l : List (String × AITask))
    (hnd : (l.map Prod.fst).Nodup) (hlen : l.length = 1001) :
    (evict_completed l).length = 501 := by
  unfold evict_completed
  rw [if_pos (by omega)]
  exact evict_filter_length_aux l (List.insertionSort byCreated l) hnd
    (List.perm_insertionSort byCreated l) hlen

/-- Eviction keeps the completed set at or below the 1000-entry capacity. -/
theorem evict_length_le (l : List (String × AITask))
    (hnd : (l.map Prod.fst).Nodup) (hle : l.length ≤ 1001) :
    (evict_completed l).length ≤ 1000 := by
  by_cases h : l.length > 1000
  · have h1 : l.length = 1001 := by omega
    rw [evict_length_eq l hnd h1]
    omega
  · unfold evict_completed
    rw [if_neg h]
    omega

/-- Auxiliary: an entry removed by the filter is, by sortedness of the
permutation, no younger than any surviving entry. -/
theorem evict_oldest_aux (l L : List (String × AITask))
    (hnd : (l.map Prod.fst).Nodup) (hperm : L.Perm l)
    (hsorted : List.Pairwise byCreated L) (e : String × AITask) (he : e ∈ l)
    (hmiss : e.1 ∉ (l.filter (fun x => decide (x.1 ∉ (L.take 500).map Prod.fst))).map Prod.fst)
    (k : String × AITask)
    (hk : k ∈ l.filter (fun x => decide (x.1 ∉ (L.take 500).map Prod.fst))) :
    e.2.created_at ≤ k.2.created_at := by
  have hpe : e.1 ∈ (L.take 500).map Prod.fst := by
    by_contra hni
    exact hmiss (List.mem_map.mpr ⟨e, List.mem_filter.mpr ⟨he, decide_eq_true hni⟩, rfl⟩)
  obtain ⟨e', he', hkey⟩ := List.mem_map.mp hpe
  have heL : e' ∈ l := hperm.mem_iff.mp (List.mem_of_mem_take he')
  have hee : e = e' := entry_eq_of_key_eq hnd he heL hkey.symm
  have hkl : k ∈ l := List.mem_of_mem_filter hk
  have hkp : k.1 ∉ (L.take 500).map Prod.fst := of_decide_eq_true (List.mem_filter.mp hk).2
  have hkL : k ∈ L := hperm.mem_iff.mpr hkl
  have hkdrop : k ∈ L.drop 500 := by
    have hmem : k ∈ L.take 500 ++ L.drop 500 := by
      rw [List.take_append_drop]
      exact hkL
    rcases List.mem_append.mp hmem with h | h
    · exact absurd (List.mem_map.mpr ⟨k, h, rfl⟩) hkp
    · exact h
  have hpw : List.Pairwise byCreated (L.take 500 ++ L.drop 500) := by
    rw [List.take_append_drop]
    exact hsorted
  have hle := (List.pairwise_append.mp hpw).2.2 e' he' k hkdrop
  rw [hee]
  exact hle

/-- Every entry eviction removes is at least as old (by created_at) as every
entry it keeps. -/
theorem evict_oldest (l : List (String × AITask)) (hnd : (l.map Prod.fst).Nodup) :
    ∀ e ∈ l, e.1 ∉ (evict_completed l).map Prod.fst →
      ∀ k ∈ evict_completed l, e.2.created_at ≤ k.2.created_at := by
  intro e he hmiss k hk
  by_cases hlen : l.length > 1000
  · unfold evict_completed at hmiss hk
    rw [if_pos hlen] at hmiss hk
    exact evict_oldest_aux l (List.insertionSort byCreated l) hnd
      (List.perm_insertionSort byCreated l)
      (List.sorted_insertionSort byCreated l) e he hmiss k hk
  · exfalso
    apply hmiss
    unfold evict_completed
    rw [if_neg hlen]
    exact List.mem_map.mpr ⟨e, he, rfl⟩

/-- Claim C6, confirmed: across one task-completion step the completed set
never ends above the 1000-entry capacity (the check at line 250 fires right
after the insertion); when the insertion crosses the capacity the keys of
the oldest 500 entries by created_at are deleted (lines 251-256), leaving
501, and every entry so removed is at least as old as every surviving
entry. -/
theorem C6_completed_bound (invoke : Invoke) (ptime : Nat) (t : AITask) (s : KernelState)
    (hnd : (s.completed_tasks.map Prod.fst).Nodup)
    (hfresh : t.id ∉ s.completed_tasks.map Prod.fst)
    (hlen : s.completed_tasks.length ≤ 1000) :
    (process_task invoke ptime t s).completed_tasks.length ≤ 1000
    ∧ (s.completed_tasks.length = 1000 →
        (process_task invoke ptime t s).completed_tasks.length = 501)
    ∧ ∀ e ∈ s.completed_tasks,
        e.1 ∉ (process_task invoke ptime t s).completed_tasks.map Prod.fst →
        ∀ k ∈ (process_task invoke ptime t s).completed_tasks,
          e.2.created_at ≤ k.2.created_at := by
  have hlk : dictLookup t.id (begin_task t s).active_tasks
      = some { t with status := .running } := by
    simp [begin_task, dictLookup_insert_self]
  have hcomp : (process_task invoke ptime t s).completed_tasks
      = evict_completed (dictInsert t.id
          (applyOutcome (module_outcome invoke s t) { t with status := .running })
          s.completed_tasks) := by
    unfold process_task
    cases module_outcome invoke s t with
    | success r =>
      rw [finish_task_success r ptime t.id (begin_task t s) { t with status := .running } hlk]
      rfl
    | failure msg =>
      rw [finish_task_failure msg ptime t.id (begin_task t s) { t with status := .running } hlk]
      rfl
  have hins : dictInsert t.id
      (applyOutcome (module_outcome invoke s t) { t with status := .running })
      s.completed_tasks
      = s.completed_tasks
        ++ [(t.id, applyOutcome (module_outcome invoke s t) { t with status := .running })] :=
    dictInsert_of_not_mem hfresh _
  have hnd' : ((dictInsert t.id
      (applyOutcome (module_outcome invoke s t) { t with status := .running })
      s.completed_tasks).map Prod.fst).Nodup := keys_dictInsert_nodup hnd t.id _
  have hlen' : (dictInsert t.id
      (applyOutcome (module_outcome invoke s t) { t with status := .running })
      s.completed_tasks).length = s.completed_tasks.length + 1 := by
    rw [hins, List.length_append, List.length_cons, List.length_nil]
  refine ⟨?_, ?_, ?_⟩
  · rw [hcomp]
    apply evict_length_le _ hnd'
    omega
  · intro h1000
    rw [hcomp]
    apply evict_length_eq _ hnd'
    omega
  · intro e he hmiss k hk
    rw [hcomp] at hmiss hk
    apply evict_oldest _ hnd' e ?_ hmiss k hk
    rw [hins]
    exact List.mem_append_left _ he

/-- Witness for C6 at the fresh kernel processing one task. -/
theorem C6_completed_bound_witness :
    (process_task invTrivial 0 c3_task initState).completed_tasks.length ≤ 1000 :=
  (C6_completed_bound invTrivial 0 c3_task initState (by decide) (by decide) (by decide)).1

end VoidKernel
